import Mathlib

/-!
Shallow embedding of the news-retrieval engine of
`src/src/components/NewsSection.tsx` (the resilient multi-source
content-retrieval engine): provider clients `fetchAlphaVantageNews` and
`fetchNewsAPI`, the synthetic fallback `getMockNews`, and the orchestrating
`fetchNews`, together with the widget state they mutate.

Network responses are modelled as inductive oracles (one value per possible
upstream behaviour); JavaScript `undefined` is `Option.none`; JS string
falsiness (`x || d`) is modelled by `jsOr`; timestamps are integers in
milliseconds and the `Date.toISOString` rendering is abstracted by the
injective `isoString`.
-/

namespace NewsSection

/-- Model of JavaScript `String.prototype.includes` on char lists:
prefix test. -/
def isPrefixLC : List Char → List Char → Bool
  | [], _ => true
  | _ :: _, [] => false
  | a :: as, b :: bs => a == b && isPrefixLC as bs

/-- Model of JavaScript `String.prototype.includes` on char lists:
substring occurrence. -/
def containsSub (pat : List Char) : List Char → Bool
  | [] => isPrefixLC pat []
  | b :: bs => isPrefixLC pat (b :: bs) || containsSub pat bs

/-- Model of JavaScript substring test: `jsIncludes s pat` is `s.includes(pat)`. -/
def jsIncludes (s pat : String) : Bool := containsSub pat.data s.data

/-- Model of JavaScript `String.prototype.toLowerCase` (ASCII, which covers
every string the component handles): lowercase each character. -/
def jsToLower (s : String) : String := ⟨s.data.map Char.toLower⟩

/-- Model of JavaScript `x || d` where `x` is a possibly-undefined string:
`undefined` and the empty string are falsy. -/
def jsOr (x : Option String) (d : String) : String :=
  match x with
  | none => d
  | some v => if v = "" then d else v

/-- Model of the constant `NEWS_API_KEY`: the environment variable
`REACT_APP_NEWS_API_KEY` defaulted (by JS falsiness) to the empty string. -/
def NEWS_API_KEY (envVar : Option String) : String := jsOr envVar ""

/-- Model of the constant `ALPHA_VANTAGE_API_KEY`: the environment variable
`REACT_APP_ALPHA_VANTAGE_API_KEY` defaulted (by JS falsiness) to `demo`. -/
def ALPHA_VANTAGE_API_KEY (envVar : Option String) : String := jsOr envVar "demo"

/-- The canonical item shape (`interface NewsItem`). Optional fields are
`Option`; `none` is JavaScript `undefined`. -/
structure NewsItem where
  id : String
  title : String
  description : Option String
  url : String
  publishedAt : String
  source : String
  category : Option String := none
  imageUrl : Option String := none
  sentiment : Option String := none
deriving DecidableEq

/-- Error value thrown by a provider client (any JS `Error` reaching the
`throw error` rethrow in the client catch blocks). -/
structure ProviderError where
  msg : String
deriving DecidableEq

/-- One entry of the Alpha Vantage `data.feed` array, with the fields the
normalization reads; optional ones may be `undefined`. -/
structure AVFeedItem where
  title : String
  summary : Option String
  url : String
  time_published : String
  source : String
  banner_image : Option String
  overall_sentiment_label : Option String
deriving DecidableEq

/-- The possible upstream behaviours of the Alpha Vantage call as seen by
`fetchAlphaVantageNews`: the `fetch`/`json` call throws, the body carries a
truthy `Error Message` field, the body has a `feed` array, or it has no
usable `feed` field. -/
inductive AVResponse where
  | transportError
  | errorEnvelope
  | feed (items : List AVFeedItem)
  | noFeed
deriving DecidableEq

/-- The per-item normalization inside `fetchAlphaVantageNews`
(`data.feed.slice(0, 10).map((item, index) => ...)`); `index` is the
position within the sliced array.  The sentiment field lowercases
`overall_sentiment_label` when present and truthy, else defaults to
`neutral`. -/
def avNormalize (index : Nat) (item : AVFeedItem) : NewsItem :=
  { id := toString index
    title := item.title
    description := item.summary
    url := item.url
    publishedAt := item.time_published
    source := item.source
    imageUrl := item.banner_image
    sentiment := some (jsOr (item.overall_sentiment_label.map jsToLower) "neutral") }

/-- Primary client `fetchAlphaVantageNews`: throws on transport failure or an
`Error Message` envelope, returns the first 10 normalized feed entries,
and returns `[]` when the body has no `feed` array. -/
def fetchAlphaVantageNews : AVResponse → Except ProviderError (List NewsItem)
  | .transportError => .error ⟨"network"⟩
  | .errorEnvelope => .error ⟨"Failed to fetch news data"⟩
  | .feed items => .ok (((items.take 10).enum).map fun p => avNormalize p.1 p.2)
  | .noFeed => .ok []

/-- One entry of the NewsAPI `data.articles` array. -/
structure NAArticle where
  title : String
  description : Option String
  url : String
  publishedAt : String
  sourceName : String
  urlToImage : Option String
deriving DecidableEq

/-- The possible upstream behaviours of the NewsAPI call as seen by
`fetchNewsAPI`: the `fetch`/`json` call throws, the body has an error
status (with an optional `message`), the body has no usable
`articles` array (the `.map` access then throws a `TypeError`), or it has
an `articles` array. -/
inductive NAResponse where
  | transportError
  | statusError (message : Option String)
  | malformed
  | articles (arts : List NAArticle)
deriving DecidableEq

/-- The category → search-term lookup in `fetchNewsAPI`. -/
def newsAPIQuery (category : String) : String :=
  if category = "technology" then "technology stocks OR tech earnings OR semiconductor"
  else if category = "earnings" then "earnings report OR quarterly results OR financial results"
  else "stock market OR investing OR financial markets"

/-- The `pageSize` request parameter of the NewsAPI query string. -/
def newsAPIPageSize : Nat := 10

/-- The per-article normalization inside `fetchNewsAPI`
(`data.articles.map((article, index) => ...)`). Note: no slicing. -/
def naNormalize (category : String) (index : Nat) (a : NAArticle) : NewsItem :=
  { id := toString index
    title := a.title
    description := a.description
    url := a.url
    publishedAt := a.publishedAt
    source := a.sourceName
    imageUrl := a.urlToImage
    category := some category }

/-- Secondary client `fetchNewsAPI`: throws on transport failure, an
error-status body (whose message falls back to a fixed one) or a missing
`articles` array; otherwise maps every article, without truncation. -/
def fetchNewsAPI (category : String) : NAResponse → Except ProviderError (List NewsItem)
  | .transportError => .error ⟨"network"⟩
  | .statusError m => .error ⟨jsOr m "Failed to fetch news"⟩
  | .malformed => .error ⟨"TypeError"⟩
  | .articles arts => .ok (arts.enum.map fun p => naNormalize category p.1 p.2)

/-- Abstraction of `new Date(t).toISOString()` as an injective rendering of
the millisecond timestamp. -/
def isoString (t : Int) : String := toString t

/-- First entry of the `mockNews` array inside
`getMockNews`, with `Date.now()` equal to `now`. -/
def mockItem1 (now : Int) : NewsItem :=
  { id := "1"
    title := "Major Tech Stocks Rally as AI Sector Shows Strong Growth"
    description := some "Technology stocks surged today as artificial intelligence companies reported better-than-expected quarterly results."
    url := "#"
    publishedAt := isoString (now - 3600000)
    source := "Financial Times"
    sentiment := some "positive" }

/-- Second fixed mock entry. -/
def mockItem2 (now : Int) : NewsItem :=
  { id := "2"
    title := "Federal Reserve Holds Interest Rates Steady"
    description := some "The Federal Reserve maintained current interest rates, citing stable inflation and employment data."
    url := "#"
    publishedAt := isoString (now - 7200000)
    source := "Reuters"
    sentiment := some "neutral" }

/-- Third fixed mock entry. -/
def mockItem3 (now : Int) : NewsItem :=
  { id := "3"
    title := "Renewable Energy Stocks Gain Momentum"
    description := some "Clean energy companies see increased investor interest following new government incentives."
    url := "#"
    publishedAt := isoString (now - 10800000)
    source := "Bloomberg"
    sentiment := some "positive" }

/-- Fourth fixed mock entry. -/
def mockItem4 (now : Int) : NewsItem :=
  { id := "4"
    title := "Quarterly Earnings Season Begins with Mixed Results"
    description := some "Early earnings reports show varied performance across different sectors of the market."
    url := "#"
    publishedAt := isoString (now - 14400000)
    source := "CNBC"
    sentiment := some "neutral" }

/-- Fifth fixed mock entry. -/
def mockItem5 (now : Int) : NewsItem :=
  { id := "5"
    title := "Cryptocurrency Market Shows Signs of Recovery"
    description := some "Digital assets rebound after recent volatility, with Bitcoin and Ethereum leading gains."
    url := "#"
    publishedAt := isoString (now - 18000000)
    source := "CoinDesk"
    sentiment := some "positive" }

/-- The fixed 5-item `mockNews` dataset. -/
def mockNewsData (now : Int) : List NewsItem :=
  [mockItem1 now, mockItem2 now, mockItem3 now, mockItem4 now, mockItem5 now]

/-- Synthetic source `getMockNews`: the fixed dataset filtered by category.
In the component the filter reads the `selectedCategory` state variable,
which at both call sites equals the `category` argument of `fetchNews`
(both are invoked as `fetchNews(selectedCategory)`), so the category is
passed explicitly here. -/
def getMockNews (selectedCategory : String) (now : Int) : List NewsItem :=
  let mockNews := mockNewsData now
  if selectedCategory = "technology" then
    mockNews.filter fun item =>
      jsIncludes (jsToLower item.title) "tech" || jsIncludes (jsToLower item.title) "ai" ||
        jsIncludes (jsToLower item.title) "crypto"
  else if selectedCategory = "earnings" then
    mockNews.filter fun item =>
      jsIncludes (jsToLower item.title) "earnings" ||
        jsIncludes (jsToLower item.title) "quarterly"
  else
    mockNews

/-- The widget state touched by `fetchNews` (`news`, `loading`, `error`,
`lastUpdated` hooks). -/
structure NewsState where
  news : List NewsItem
  loading : Bool
  error : Option String
  lastUpdated : Int
deriving DecidableEq

/-- Environment of one refresh: the two configured keys, the behaviour each
upstream would exhibit if called this refresh, and the current time. -/
structure Env where
  avKey : String
  naKey : String
  avResp : AVResponse
  naResp : NAResponse
  now : Int
deriving DecidableEq

/-- The fixed user-facing degraded message set by the catch of `fetchNews`. -/
def failedMsg : String := "Failed to load news. Using sample data."

/-- The `try` block of `fetchNews` up to the mock fallback: the computed
`newsData` (or the error that escapes to the outer catch), plus flags
recording whether the Alpha Vantage and NewsAPI calls were made. -/
def fetchNewsTry (category : String) (env : Env) :
    Except ProviderError (List NewsItem) × Bool × Bool :=
  if env.avKey ≠ "" ∧ env.avKey ≠ "demo" then
    match fetchAlphaVantageNews env.avResp with
    | .ok items => (.ok items, true, false)
    | .error _ =>
      if env.naKey ≠ "" then
        (fetchNewsAPI category env.naResp, true, true)
      else
        (.ok [], true, false)
  else if env.naKey ≠ "" then
    (fetchNewsAPI category env.naResp, false, true)
  else
    (.ok [], false, false)

/-- Terminal observation of one refresh: the resulting state plus which
sources were invoked. -/
structure FetchResult where
  state : NewsState
  avCalled : Bool
  naCalled : Bool
  mockUsed : Bool
deriving DecidableEq

/-- Engine refresh `fetchNews`: sets `loading`/`error`, runs the provider chain,
falls back to `getMockNews` on an empty `newsData`, records `lastUpdated`
on the success path, and absorbs any escaped error in the catch (mock data
plus the fixed message, without touching `lastUpdated`); `loading` is
cleared in the `finally`. -/
def fetchNews (category : String) (env : Env) (s : NewsState) : FetchResult :=
  let s1 : NewsState := { s with loading := true, error := none }
  match fetchNewsTry category env with
  | (.ok newsData, avC, naC) =>
    if newsData.length = 0 then
      { state :=
          { s1 with
            news := getMockNews category env.now,
            lastUpdated := env.now,
            loading := false },
        avCalled := avC, naCalled := naC, mockUsed := true }
    else
      { state :=
          { s1 with
            news := newsData,
            lastUpdated := env.now,
            loading := false },
        avCalled := avC, naCalled := naC, mockUsed := false }
  | (.error _, avC, naC) =>
    { state :=
        { s1 with
          error := some failedMsg,
          news := getMockNews category env.now,
          loading := false },
      avCalled := avC, naCalled := naC, mockUsed := true }

/-- Phase enumeration of the spec for a terminal or in-flight state. -/
inductive Phase where
  | Loading
  | Ready
  | DegradedReady
deriving DecidableEq

/-- Phase read off the widget state: `Loading` while a refresh is in
flight, `DegradedReady` when a user-facing error message is set, `Ready`
otherwise. -/
def phaseOf (s : NewsState) : Phase :=
  if s.loading then .Loading
  else if s.error.isSome then .DegradedReady
  else .Ready

/-- Whether a NewsAPI behaviour makes `fetchNewsAPI` throw. -/
def naThrows : NAResponse → Bool
  | .articles _ => false
  | _ => true

/-- A state with no items, not loading, no error, epoch timestamp. -/
def s0 : NewsState := { news := [], loading := false, error := none, lastUpdated := 0 }

/-- The technology title rule of the mock filter: title contains `tech`,
`ai` or `crypto` case-insensitively. -/
def techTitleMatch (item : NewsItem) : Bool :=
  jsIncludes (jsToLower item.title) "tech" || jsIncludes (jsToLower item.title) "ai" ||
    jsIncludes (jsToLower item.title) "crypto"

/-- The earnings title rule of the mock filter: title contains `earnings`
or `quarterly` case-insensitively. -/
def earningsTitleMatch (item : NewsItem) : Bool :=
  jsIncludes (jsToLower item.title) "earnings" ||
    jsIncludes (jsToLower item.title) "quarterly"

/-- An Alpha Vantage feed entry with every optional upstream field missing. -/
def avItemNoOptional : AVFeedItem :=
  { title := "Fed Holds Rates", summary := none, url := "u",
    time_published := "20240101T000000", source := "AV",
    banner_image := none, overall_sentiment_label := none }

/-- An Alpha Vantage feed entry whose sentiment label is the empty string. -/
def avItemEmptyLabel : AVFeedItem :=
  { title := "Fed Holds Rates", summary := none, url := "u",
    time_published := "20240101T000000", source := "AV",
    banner_image := none, overall_sentiment_label := some "" }

/-- An Alpha Vantage feed entry with the provider label `Somewhat-Bullish`. -/
def avItemSomewhatBullish : AVFeedItem :=
  { title := "Chipmaker Beats Estimates", summary := some "A summary.",
    url := "u", time_published := "20240101T000000", source := "AV",
    banner_image := none, overall_sentiment_label := some "Somewhat-Bullish" }

/-- An Alpha Vantage feed entry used for a successful primary fetch. -/
def avItemOne : AVFeedItem :=
  { title := "Markets Rally", summary := some "A summary.", url := "u",
    time_published := "20240101T000000", source := "AV",
    banner_image := none, overall_sentiment_label := some "Bullish" }

/-- A generic NewsAPI article. -/
def naArticleT : NAArticle :=
  { title := "t", description := none, url := "u", publishedAt := "p",
    sourceName := "s", urlToImage := none }

/-- Refresh environment: primary key configured, primary fails at runtime,
secondary credential absent from configuration. -/
def envSecondaryKeyAbsent : Env :=
  { avKey := "AVK", naKey := NEWS_API_KEY none,
    avResp := .transportError, naResp := .transportError, now := 1000 }

/-- Refresh environment: primary key configured, primary fails at runtime,
secondary key configured but the secondary call fails at runtime. -/
def envSecondaryRuntimeFail : Env :=
  { avKey := "AVK", naKey := "NAK",
    avResp := .transportError, naResp := .transportError, now := 1000 }

/-- Refresh environment: primary reports an error envelope, secondary
succeeds with an empty article list. -/
def envFailAndEmpty : Env :=
  { avKey := "AVK", naKey := "NAK",
    avResp := .errorEnvelope, naResp := .articles [], now := 7 }

/-- Refresh environment: both providers throw at runtime. -/
def envBothThrow : Env :=
  { avKey := "AVK", naKey := "NAK",
    avResp := .transportError, naResp := .statusError none, now := 9 }

/-- Refresh environment: both credentials absent (primary defaults to
`demo`, secondary to the empty string). -/
def envBothAbsent : Env :=
  { avKey := ALPHA_VANTAGE_API_KEY none, naKey := NEWS_API_KEY none,
    avResp := .transportError, naResp := .transportError, now := 42 }

/-- Refresh environment: primary key absent, secondary returns 11
articles (an upstream that ignores the `pageSize=10` parameter). -/
def envElevenArticles : Env :=
  { avKey := "demo", naKey := "K",
    avResp := .noFeed, naResp := .articles (List.replicate 11 naArticleT), now := 0 }

/-- Refresh environment: primary key absent, secondary returns exactly 10
articles. -/
def envTenArticles : Env :=
  { avKey := "demo", naKey := "K",
    avResp := .noFeed, naResp := .articles (List.replicate 10 naArticleT), now := 0 }

/-- Refresh environment: primary key configured and the primary feed has
one item; secondary credential absent. -/
def envPrimaryOne : Env :=
  { avKey := "K", naKey := "",
    avResp := .feed [avItemOne], naResp := .transportError, now := 5 }

/-!  Theorems. -/

/-- C8: `getMockNews` never fails (it is a total function) and filters the
fixed 5-item dataset exactly by the case-insensitive title rules: for
`technology` the items whose title contains `tech`, `ai` or `crypto`
(items 1, 3 and 5 — item 3 matches because `Gain` contains `ai`); for
`earnings` the items whose title contains `earnings` or `quarterly`
(item 4 only); for `general` the full dataset in order. -/
theorem getMockNews_category_filter (now : Int) :
    getMockNews "general" now = mockNewsData now ∧
    getMockNews "technology" now = (mockNewsData now).filter techTitleMatch ∧
    getMockNews "earnings" now = (mockNewsData now).filter earningsTitleMatch ∧
    getMockNews "technology" now = [mockItem1 now, mockItem3 now, mockItem5 now] ∧
    getMockNews "earnings" now = [mockItem4 now] ∧
    (mockNewsData now).length = 5 := by
  refine ⟨rfl, rfl, rfl, ?_, ?_, rfl⟩ <;> rfl

/-- C4 counterexample: an Alpha Vantage item carrying no
`overall_sentiment_label` is normalized with sentiment `some "neutral"`,
not with an absent sentiment — the code guesses the default `neutral`. -/
theorem avNormalize_missing_sentiment_defaults :
    (avNormalize 0 avItemNoOptional).sentiment = some "neutral" ∧
    (avNormalize 0 avItemNoOptional).sentiment ≠ none := by
  decide

/-- C4 amended: in the primary normalization the optional `summary` and
`banner_image` fields do map missing to absent (and are passed through
unchanged in general), but a missing sentiment label maps to the default
`some "neutral"`, never to absent. -/
theorem avNormalize_optional_fields (index : Nat) (item : AVFeedItem) :
    (avNormalize index item).description = item.summary ∧
    (avNormalize index item).imageUrl = item.banner_image ∧
    (item.overall_sentiment_label = none →
      (avNormalize index item).sentiment = some "neutral") := by
  refine ⟨rfl, rfl, fun h => ?_⟩
  simp [avNormalize, h, jsOr]

/-- Witness for `avNormalize_optional_fields` at the concrete item with
every optional field missing. -/
theorem avNormalize_optional_fields_w :
    (avNormalize 0 avItemNoOptional).description = none ∧
    (avNormalize 0 avItemNoOptional).imageUrl = none ∧
    (avNormalize 0 avItemNoOptional).sentiment = some "neutral" := by
  have h := avNormalize_optional_fields 0 avItemNoOptional
  exact ⟨h.1, h.2.1, h.2.2 rfl⟩

/-- C10 counterexample: an item whose upstream sentiment label is the
empty string is not passed through lowercased — JavaScript string
falsiness turns it into the default `neutral`. -/
theorem avNormalize_empty_label_not_passthrough :
    (avNormalize 0 avItemEmptyLabel).sentiment = some "neutral" ∧
    (avNormalize 0 avItemEmptyLabel).sentiment ≠ some (jsToLower "") := by
  decide

/-- C10 amended: whenever the upstream item carries a sentiment label
whose lowercasing is non-empty, the canonical sentiment is exactly that
label lowercased, with no validation against the declared enum; a missing
or empty label yields `neutral`. -/
theorem avNormalize_sentiment_passthrough (index : Nat) (item : AVFeedItem) (l : String)
    (hl : item.overall_sentiment_label = some l) (hne : jsToLower l ≠ "") :
    (avNormalize index item).sentiment = some (jsToLower l) := by
  simp [avNormalize, hl, jsOr, hne]

/-- Witness for `avNormalize_sentiment_passthrough`: the label
`Somewhat-Bullish` becomes the out-of-enum sentiment `somewhat-bullish`. -/
theorem avNormalize_sentiment_passthrough_w :
    (avNormalize 0 avItemSomewhatBullish).sentiment = some "somewhat-bullish" ∧
    "somewhat-bullish" ≠ "positive" ∧ "somewhat-bullish" ≠ "negative" ∧
    "somewhat-bullish" ≠ "neutral" := by
  have h := avNormalize_sentiment_passthrough 0 avItemSomewhatBullish
    "Somewhat-Bullish" rfl (by decide)
  refine ⟨?_, by decide, by decide, by decide⟩
  exact h

/-- C5 counterexample: when both providers fail at runtime the refresh
ends in DegradedReady, yet `lastUpdated` keeps its previous value `0` and
is not set to the resolution time `1000` — the catch path never updates
it. -/
theorem degraded_refresh_keeps_old_timestamp :
    phaseOf (fetchNews "general" envSecondaryRuntimeFail s0).state = Phase.DegradedReady ∧
    (fetchNews "general" envSecondaryRuntimeFail s0).state.lastUpdated = 0 ∧
    envSecondaryRuntimeFail.now = 1000 := by
  decide

/-- C2 counterexample: primary fails with an error envelope and secondary
succeeds with an empty article list — both providers "fail or return
empty" — yet the refresh ends with `error = none` (phase Ready, not
DegradedReady) even though the items are the synthetic ones; the fixed
message is only set when the last attempted provider throws. -/
theorem fail_and_empty_has_no_error_message :
    (fetchNews "general" envFailAndEmpty s0).state.news = getMockNews "general" 7 ∧
    (fetchNews "general" envFailAndEmpty s0).state.error = none ∧
    phaseOf (fetchNews "general" envFailAndEmpty s0).state = Phase.Ready := by
  refine ⟨rfl, by decide, by decide⟩

/-- C6 counterexample: the secondary client performs no client-side
truncation, so with an upstream response of 11 articles the terminal item
list has 11 items, exceeding the claimed bound of 10. -/
theorem secondary_no_truncation :
    (fetchNews "general" envElevenArticles s0).state.news.length = 11 ∧
    ¬ (fetchNews "general" envElevenArticles s0).state.news.length ≤ 10 := by
  decide

/-- C1 counterexample: with the secondary credential absent
(`NEWS_API_KEY` of an absent variable is `""`) and the primary failing at
runtime, the secondary is never invoked, and the terminal state differs
from the one where the same secondary fails at runtime: the absence path
ends with no error message and an updated timestamp, the runtime-failure
path with the fixed message and a stale timestamp. -/
theorem absent_credential_not_like_runtime_failure :
    (fetchNews "general" envSecondaryKeyAbsent s0).naCalled = false ∧
    (fetchNews "general" envSecondaryKeyAbsent s0).state.error = none ∧
    (fetchNews "general" envSecondaryRuntimeFail s0).state.error = some failedMsg ∧
    (fetchNews "general" envSecondaryKeyAbsent s0).state.lastUpdated ≠
      (fetchNews "general" envSecondaryRuntimeFail s0).state.lastUpdated ∧
    (fetchNews "general" envSecondaryKeyAbsent s0).state ≠
      (fetchNews "general" envSecondaryRuntimeFail s0).state := by
  decide

/-- C3: for every category, configuration and combination of provider
outcomes, a refresh terminates normally with the terminal phase Ready or
DegradedReady — every provider error is absorbed by the engine, none
propagates to the presenter. -/
theorem fetchNews_always_ready_or_degraded (category : String) (env : Env) (s : NewsState) :
    phaseOf (fetchNews category env s).state = Phase.Ready ∨
    phaseOf (fetchNews category env s).state = Phase.DegradedReady := by
  unfold fetchNews
  rcases h : fetchNewsTry category env with ⟨res, avC, naC⟩
  cases res with
  | ok l =>
    by_cases hl : l.length = 0 <;> simp [hl, phaseOf]
  | error e => simp [phaseOf]

/-- The terminal item list of a refresh does not depend on the state the
refresh started from. -/
theorem fetchNews_news_independent_of_state (category : String) (env : Env)
    (s t : NewsState) :
    (fetchNews category env s).state.news = (fetchNews category env t).state.news := by
  unfold fetchNews
  rcases h : fetchNewsTry category env with ⟨res, avC, naC⟩
  cases res with
  | ok l => by_cases hl : l.length = 0 <;> simp [hl]
  | error e => simp

/-- C9: two refreshes in immediate succession (same category, same
configuration, same upstream behaviour, same clock reading) yield the same
terminal item sequence — the second refresh, started from the first
terminal state, ends with exactly the items of the first. -/
theorem refresh_idempotent (category : String) (env : Env) (s : NewsState) :
    (fetchNews category env (fetchNews category env s).state).state.news =
      (fetchNews category env s).state.news :=
  fetchNews_news_independent_of_state category env _ s

/-- C5 amended: `lastUpdated` is set to the resolution time exactly when
the refresh resolves through the try path (terminal `error = none`,
i.e. real data or the silent mock fallback); when the refresh resolves
through the catch (terminal `error` set, DegradedReady), `lastUpdated`
keeps the value it had before the refresh. -/
theorem lastUpdated_set_iff_no_error (category : String) (env : Env) (s : NewsState) :
    ((fetchNews category env s).state.error = none →
      (fetchNews category env s).state.lastUpdated = env.now) ∧
    ((fetchNews category env s).state.error ≠ none →
      (fetchNews category env s).state.lastUpdated = s.lastUpdated) := by
  unfold fetchNews
  rcases h : fetchNewsTry category env with ⟨res, avC, naC⟩
  cases res with
  | ok l => by_cases hl : l.length = 0 <;> simp [hl]
  | error e => simp

/-- Witness for `lastUpdated_set_iff_no_error`: with both credentials
absent the refresh resolves through the try path and stamps the resolution
time `42`. -/
theorem lastUpdated_set_iff_no_error_w :
    (fetchNews "general" envBothAbsent s0).state.lastUpdated = 42 := by
  have h := (lastUpdated_set_iff_no_error "general" envBothAbsent s0).1 (by decide)
  exact h

/-- C7: if the primary key is configured and the primary fetch succeeds
with at least one item, the refresh ends Ready with exactly the primary
normalized items in order, the secondary is not called and the synthetic
source is not used. -/
theorem primary_success_ready (category : String) (env : Env) (s : NewsState)
    (items : List NewsItem)
    (hkey : env.avKey ≠ "" ∧ env.avKey ≠ "demo")
    (hok : fetchAlphaVantageNews env.avResp = .ok items)
    (hne : items ≠ []) :
    (fetchNews category env s).state.news = items ∧
    phaseOf (fetchNews category env s).state = Phase.Ready ∧
    (fetchNews category env s).state.error = none ∧
    (fetchNews category env s).state.lastUpdated = env.now ∧
    (fetchNews category env s).naCalled = false ∧
    (fetchNews category env s).mockUsed = false := by
  have hl : ¬ items.length = 0 := by simpa using hne
  unfold fetchNews fetchNewsTry
  rw [if_pos hkey, hok]
  simp [hl, phaseOf]

/-- Witness for `primary_success_ready`: a one-item primary feed resolves
Ready with that normalized item. -/
theorem primary_success_ready_w :
    (fetchNews "general" envPrimaryOne s0).state.news = [avNormalize 0 avItemOne] ∧
    phaseOf (fetchNews "general" envPrimaryOne s0).state = Phase.Ready ∧
    (fetchNews "general" envPrimaryOne s0).naCalled = false ∧
    (fetchNews "general" envPrimaryOne s0).mockUsed = false := by
  have h := primary_success_ready "general" envPrimaryOne s0 [avNormalize 0 avItemOne]
    (by decide) rfl (by simp)
  exact ⟨h.1, h.2.1, h.2.2.2.2.1, h.2.2.2.2.2⟩

/-- The mock dataset has 5 items and its category filter only removes
items, so the synthetic result never exceeds 10 items. -/
theorem getMockNews_length_le (cat : String) (now : Int) :
    (getMockNews cat now).length ≤ 10 := by
  have h5 : (mockNewsData now).length = 5 := rfl
  unfold getMockNews
  by_cases h1 : cat = "technology"
  · simp only [if_pos h1]
    exact le_trans (List.length_filter_le _ _) (by rw [h5]; omega)
  · simp only [if_neg h1]
    by_cases h2 : cat = "earnings"
    · simp only [if_pos h2]
      exact le_trans (List.length_filter_le _ _) (by rw [h5]; omega)
    · simp only [if_neg h2]
      rw [h5]; omega

/-- A successful primary fetch returns at most 10 items (the `slice`). -/
theorem fetchAlphaVantageNews_ok_length {resp : AVResponse} {l : List NewsItem}
    (h : fetchAlphaVantageNews resp = .ok l) : l.length ≤ 10 := by
  cases resp with
  | transportError => simp [fetchAlphaVantageNews] at h
  | errorEnvelope => simp [fetchAlphaVantageNews] at h
  | noFeed =>
    simp only [fetchAlphaVantageNews, Except.ok.injEq] at h
    subst h
    simp
  | feed items =>
    simp only [fetchAlphaVantageNews, Except.ok.injEq] at h
    rw [← h, List.length_map, List.enum_length, List.length_take]
    exact Nat.min_le_left _ _

/-- A successful secondary fetch has exactly as many items as the
upstream `articles` array — no truncation happens client-side. -/
theorem fetchNewsAPI_ok_cases {category : String} {resp : NAResponse} {l : List NewsItem}
    (h : fetchNewsAPI category resp = .ok l) :
    ∃ arts, resp = .articles arts ∧ l.length = arts.length := by
  cases resp with
  | transportError => simp [fetchNewsAPI] at h
  | statusError m => simp [fetchNewsAPI] at h
  | malformed => simp [fetchNewsAPI] at h
  | articles arts =>
    refine ⟨arts, rfl, ?_⟩
    simp only [fetchNewsAPI, Except.ok.injEq] at h
    rw [← h, List.length_map, List.enum_length]

/-- A secondary fetch that returns `.ok` did not throw. -/
theorem fetchNewsAPI_ok_naThrows {category : String} {resp : NAResponse}
    {l : List NewsItem} (h : fetchNewsAPI category resp = .ok l) :
    naThrows resp = false := by
  cases resp
  case articles => rfl
  all_goals simp [fetchNewsAPI] at h

/-- A secondary fetch that returns `.error` threw. -/
theorem fetchNewsAPI_error_naThrows {category : String} {resp : NAResponse}
    {e : ProviderError} (h : fetchNewsAPI category resp = .error e) :
    naThrows resp = true := by
  cases resp
  case articles => simp [fetchNewsAPI] at h
  all_goals rfl

/-- A successful `newsData` out of the try block is empty, the result of
the primary, or the result of the secondary. -/
theorem fetchNewsTry_ok_cases {category : String} {env : Env} {l : List NewsItem}
    {a n : Bool} (h : fetchNewsTry category env = (.ok l, a, n)) :
    l = [] ∨ fetchAlphaVantageNews env.avResp = .ok l ∨
      fetchNewsAPI category env.naResp = .ok l := by
  unfold fetchNewsTry at h
  by_cases hA : env.avKey ≠ "" ∧ env.avKey ≠ "demo"
  · rw [if_pos hA] at h
    cases hAV : fetchAlphaVantageNews env.avResp with
    | ok items =>
      rw [hAV] at h
      simp only [Prod.mk.injEq, Except.ok.injEq] at h
      obtain ⟨h1, -, -⟩ := h
      subst h1
      exact Or.inr (Or.inl rfl)
    | error e =>
      rw [hAV] at h
      by_cases hN : env.naKey ≠ ""
      · rw [if_pos hN] at h
        simp only [Prod.mk.injEq] at h
        exact Or.inr (Or.inr h.1)
      · rw [if_neg hN] at h
        simp only [Prod.mk.injEq, Except.ok.injEq] at h
        exact Or.inl h.1.symm
  · rw [if_neg hA] at h
    by_cases hN : env.naKey ≠ ""
    · rw [if_pos hN] at h
      simp only [Prod.mk.injEq] at h
      exact Or.inr (Or.inr h.1)
    · rw [if_neg hN] at h
      simp only [Prod.mk.injEq, Except.ok.injEq] at h
      exact Or.inl h.1.symm

/-- An error escaping the try block comes from the secondary call, and
the secondary was indeed called. -/
theorem fetchNewsTry_error_cases {category : String} {env : Env}
    {e : ProviderError} {a n : Bool}
    (h : fetchNewsTry category env = (.error e, a, n)) :
    n = true ∧ fetchNewsAPI category env.naResp = .error e := by
  unfold fetchNewsTry at h
  by_cases hA : env.avKey ≠ "" ∧ env.avKey ≠ "demo"
  · rw [if_pos hA] at h
    cases hAV : fetchAlphaVantageNews env.avResp with
    | ok items =>
      rw [hAV] at h
      simp only [Prod.mk.injEq] at h
      exact absurd h.1 (by simp)
    | error e2 =>
      rw [hAV] at h
      by_cases hN : env.naKey ≠ ""
      · rw [if_pos hN] at h
        simp only [Prod.mk.injEq] at h
        exact ⟨h.2.2.symm, h.1⟩
      · rw [if_neg hN] at h
        simp only [Prod.mk.injEq] at h
        exact absurd h.1 (by simp)
  · rw [if_neg hA] at h
    by_cases hN : env.naKey ≠ ""
    · rw [if_pos hN] at h
      simp only [Prod.mk.injEq] at h
      exact ⟨h.2.2.symm, h.1⟩
    · rw [if_neg hN] at h
      simp only [Prod.mk.injEq] at h
      exact absurd h.1 (by simp)

/-- When the try block reports the secondary as called, its result is the
result of the secondary. -/
theorem fetchNewsTry_na_flag {category : String} {env : Env}
    {res : Except ProviderError (List NewsItem)} {a : Bool}
    (h : fetchNewsTry category env = (res, a, true)) :
    res = fetchNewsAPI category env.naResp := by
  unfold fetchNewsTry at h
  by_cases hA : env.avKey ≠ "" ∧ env.avKey ≠ "demo"
  · rw [if_pos hA] at h
    cases hAV : fetchAlphaVantageNews env.avResp with
    | ok items =>
      rw [hAV] at h
      simp only [Prod.mk.injEq] at h
      exact absurd h.2.2 (by simp)
    | error e2 =>
      rw [hAV] at h
      by_cases hN : env.naKey ≠ ""
      · rw [if_pos hN] at h
        simp only [Prod.mk.injEq] at h
        exact h.1.symm
      · rw [if_neg hN] at h
        simp only [Prod.mk.injEq] at h
        exact absurd h.2.2 (by simp)
  · rw [if_neg hA] at h
    by_cases hN : env.naKey ≠ ""
    · rw [if_pos hN] at h
      simp only [Prod.mk.injEq] at h
      exact h.1.symm
    · rw [if_neg hN] at h
      simp only [Prod.mk.injEq] at h
      exact absurd h.2.2 (by simp)

/-- The `avCalled` flag of a refresh is the one computed by the try block. -/
theorem fetchNews_avCalled_eq (category : String) (env : Env) (s : NewsState) :
    (fetchNews category env s).avCalled = (fetchNewsTry category env).2.1 := by
  unfold fetchNews
  rcases h : fetchNewsTry category env with ⟨res, avC, naC⟩
  cases res with
  | ok l => by_cases hl : l.length = 0 <;> simp [hl]
  | error e => simp

/-- The `naCalled` flag of a refresh is the one computed by the try block. -/
theorem fetchNews_naCalled_eq (category : String) (env : Env) (s : NewsState) :
    (fetchNews category env s).naCalled = (fetchNewsTry category env).2.2 := by
  unfold fetchNews
  rcases h : fetchNewsTry category env with ⟨res, avC, naC⟩
  cases res with
  | ok l => by_cases hl : l.length = 0 <;> simp [hl]
  | error e => simp

/-- The try block never calls a provider whose credential is absent. -/
theorem fetchNewsTry_flags_of_absent (category : String) (env : Env) :
    (env.naKey = "" → (fetchNewsTry category env).2.2 = false) ∧
    ((env.avKey = "" ∨ env.avKey = "demo") → (fetchNewsTry category env).2.1 = false) := by
  constructor
  · intro hN
    unfold fetchNewsTry
    by_cases hA : env.avKey ≠ "" ∧ env.avKey ≠ "demo"
    · rw [if_pos hA]
      cases fetchAlphaVantageNews env.avResp with
      | ok items => rfl
      | error e =>
        rw [if_neg (by simp [hN])]
    · rw [if_neg hA]
      rw [if_neg (by simp [hN])]
  · intro hA
    unfold fetchNewsTry
    have hA2 : ¬ (env.avKey ≠ "" ∧ env.avKey ≠ "demo") := by
      rcases hA with h | h <;> simp [h]
    rw [if_neg hA2]
    by_cases hN : env.naKey ≠ ""
    · rw [if_pos hN]
    · rw [if_neg hN]

/-- C1 amended: a provider whose credential is absent from configuration
(`NEWS_API_KEY` empty, or `ALPHA_VANTAGE_API_KEY` empty or left at its
`demo` default) is skipped by a special-cased guard — its call path is
never attempted, rather than being attempted and failing like a runtime
`ProviderError`. -/
theorem absent_credential_skips_provider (category : String) (env : Env) (s : NewsState) :
    (env.naKey = "" → (fetchNews category env s).naCalled = false) ∧
    ((env.avKey = "" ∨ env.avKey = "demo") → (fetchNews category env s).avCalled = false) := by
  constructor
  · intro hN
    rw [fetchNews_naCalled_eq]
    exact (fetchNewsTry_flags_of_absent category env).1 hN
  · intro hA
    rw [fetchNews_avCalled_eq]
    exact (fetchNewsTry_flags_of_absent category env).2 hA

/-- Witness for `absent_credential_skips_provider`: with both credentials
absent neither provider is invoked. -/
theorem absent_credential_skips_provider_w :
    (fetchNews "general" envBothAbsent s0).naCalled = false ∧
    (fetchNews "general" envBothAbsent s0).avCalled = false := by
  have h := absent_credential_skips_provider "general" envBothAbsent s0
  exact ⟨h.1 rfl, h.2 (Or.inr rfl)⟩

/-- C2 amended: when the primary and the secondary each fail or return an
empty normalized sequence, the refresh resolves with the synthetic items
for the category; the fixed message "Failed to load news. Using sample
data." is set exactly when the secondary was called and threw (the error
escaped to the catch); if instead the chain resolved through empty
results, `error` stays `none` and `lastUpdated` is stamped with the
resolution time. -/
theorem both_fail_or_empty_resolves_mock (category : String) (env : Env) (s : NewsState)
    (hav : ∀ l, fetchAlphaVantageNews env.avResp = .ok l → l = [])
    (hna : ∀ l, fetchNewsAPI category env.naResp = .ok l → l = []) :
    (fetchNews category env s).state.news = getMockNews category env.now ∧
    ((fetchNews category env s).state.error = some failedMsg ↔
      ((fetchNews category env s).naCalled = true ∧ naThrows env.naResp = true)) ∧
    ((fetchNews category env s).state.error = none →
      (fetchNews category env s).state.lastUpdated = env.now) := by
  unfold fetchNews
  rcases h : fetchNewsTry category env with ⟨res, avC, naC⟩
  cases res with
  | ok l =>
    have hl : l = [] := by
      rcases fetchNewsTry_ok_cases h with h1 | h1 | h1
      · exact h1
      · exact hav l h1
      · exact hna l h1
    subst hl
    by_cases hnc : naC = true
    · subst hnc
      have hth : naThrows env.naResp = false := by
        have h2 := fetchNewsTry_na_flag h
        exact fetchNewsAPI_ok_naThrows h2.symm
      simp [hth]
    · simp [hnc]
  | error e =>
    obtain ⟨hn, hf⟩ := fetchNewsTry_error_cases h
    subst hn
    have hth : naThrows env.naResp = true := fetchNewsAPI_error_naThrows hf
    simp [hth, failedMsg]

/-- Witness for `both_fail_or_empty_resolves_mock`: both providers throw,
so the refresh ends with the mock items and the fixed message. -/
theorem both_fail_or_empty_resolves_mock_w :
    (fetchNews "general" envBothThrow s0).state.news = getMockNews "general" 9 ∧
    (fetchNews "general" envBothThrow s0).state.error = some failedMsg := by
  have h := both_fail_or_empty_resolves_mock "general" envBothThrow s0
    (by intro l hl; simp [envBothThrow, fetchAlphaVantageNews] at hl)
    (by intro l hl; simp [envBothThrow, fetchNewsAPI] at hl)
  exact ⟨h.1, h.2.1.mpr ⟨by decide, rfl⟩⟩

/-- C6 amended: the primary client truncates to its first 10 items, the
mock source yields at most 5, but the secondary client does not truncate
— it only requests `pageSize=10`; so the terminal item count is bounded by
10 exactly under the assumption that the secondary upstream honors the
page size and returns at most 10 articles. -/
theorem resolved_items_le_ten (category : String) (env : Env) (s : NewsState)
    (hup : ∀ arts, env.naResp = .articles arts → arts.length ≤ 10) :
    (fetchNews category env s).state.news.length ≤ 10 := by
  unfold fetchNews
  rcases h : fetchNewsTry category env with ⟨res, avC, naC⟩
  cases res with
  | ok l =>
    by_cases hl : l.length = 0
    · simpa [hl] using getMockNews_length_le category env.now
    · have hgoal : l.length ≤ 10 := by
        rcases fetchNewsTry_ok_cases h with h1 | h1 | h1
        · subst h1; simp
        · exact fetchAlphaVantageNews_ok_length h1
        · rcases fetchNewsAPI_ok_cases h1 with ⟨arts, ha, hlen⟩
          rw [hlen]
          exact hup arts ha
      simpa [hl] using hgoal
  | error e => simpa using getMockNews_length_le category env.now

/-- Witness for `resolved_items_le_ten`: an upstream of exactly 10
articles resolves within the bound. -/
theorem resolved_items_le_ten_w :
    (fetchNews "general" envTenArticles s0).state.news.length ≤ 10 := by
  refine resolved_items_le_ten "general" envTenArticles s0 ?_
  intro arts ha
  injection ha with ha
  subst ha
  simp

end NewsSection
